import Mathlib

/-!
Verification development for an SSH MCP server (explicit-lifecycle variant,
`src/ssh-mcp-server.ts`).  The session manager's mutable fields
(`sshConnection`, `connectionConfig`, `isConnected`), its tool handlers
(connect / disconnect / status / execute) and the transport callbacks
(ready / error / end / exec / data / close) are embedded as executable Lean
definitions; liveness of connection handles is tracked explicitly in a small
world model so that lifecycle claims can be stated and settled.
-/

namespace SshMcp

/-- JavaScript-style runtime value for loosely typed tool arguments
(only the shapes the handlers inspect). -/
inductive JSVal
  | undef
  | str (s : String)
  | num (n : Int)
  | boolV (b : Bool)
  deriving DecidableEq, Repr

/-- JavaScript truthiness of a `JSVal`. -/
def JSVal.truthy : JSVal → Bool
  | .undef => false
  | .str s => s ≠ ""
  | .num n => n ≠ 0
  | .boolV b => b

/-- JavaScript `typeof v === "string"`. -/
def JSVal.isStringTy : JSVal → Bool
  | .str _ => true
  | _ => false

/-- The string payload of a `JSVal` (defaults to `""`; only used after the
`typeof` check has succeeded). -/
def JSVal.asString : JSVal → String
  | .str s => s
  | _ => ""

/-- Truthiness of an optional string argument (`undefined` and `""` are
falsy in JavaScript). -/
def optTruthy : Option String → Bool
  | none => false
  | some s => s ≠ ""

/-- `SSHConnectionConfig`: the per-connection parameters as the handler
stores them (string fields kept optional, mirroring the loosely typed
`args` object the fields are destructured from). -/
structure SSHConfig where
  host : Option String
  port : Nat
  username : Option String
  password : Option String
  privateKey : Option String
  passphrase : Option String
  deriving DecidableEq, Repr

/-- Arguments of the `ssh_connect` tool; `port` defaults to 22 when absent. -/
structure ConnectArgs where
  host : Option String
  port : Option Nat
  username : Option String
  password : Option String
  privateKey : Option String
  passphrase : Option String
  deriving DecidableEq, Repr

/-- Building `sshConfig` from the destructured connect arguments
(`port = 22` destructuring default). -/
def mkSSHConfig (a : ConnectArgs) : SSHConfig :=
  { host := a.host
    port := a.port.getD 22
    username := a.username
    password := a.password
    privateKey := a.privateKey
    passphrase := a.passphrase }

/-- `validateSSHConfig`: truthy host and username, and at least one of
password / privateKey truthy (the method throws otherwise). -/
def validateSSHConfig (c : SSHConfig) : Bool :=
  (optTruthy c.host && optTruthy c.username) &&
    (optTruthy c.password || optTruthy c.privateKey)

/-- MCP error codes as the handlers use them. -/
inductive McpCode
  | invalidRequest
  | internalError
  | methodNotFound
  deriving DecidableEq, Repr

/-- An `McpError`: machine-readable code plus human-readable message. -/
structure McpErr where
  code : McpCode
  message : String
  deriving DecidableEq, Repr

/-- The server's three mutable session fields. -/
structure ServerState where
  sshConnection : Option Nat
  connectionConfig : Option SSHConfig
  isConnected : Bool
  deriving DecidableEq, Repr

/-- Initial state: no connection, no config, not connected. -/
def initState : ServerState := ⟨none, none, false⟩

/-- JavaScript `x || null` on an optional string (empty string collapses
to null). -/
def orNullStr : Option String → Option String
  | none => none
  | some s => if s = "" then none else some s

/-- Result of the `ssh_status` tool (timestamp omitted: wall-clock only). -/
structure StatusSummary where
  connected : Bool
  host : Option String
  port : Option Nat
  username : Option String
  authMethod : Option String
  deriving DecidableEq, Repr

/-- `getSSHStatus`: pure read of the session fields, with the source's
`?.` and `|| null` coercions. -/
def getSSHStatusOf (st : ServerState) : StatusSummary :=
  { connected := st.isConnected
    host := st.connectionConfig.bind (fun c => orNullStr c.host)
    port := st.connectionConfig.bind (fun c => if c.port = 0 then none else some c.port)
    username := st.connectionConfig.bind (fun c => orNullStr c.username)
    authMethod := st.connectionConfig.map
      (fun c => if optTruthy c.privateKey then "key" else "password") }

/-- Summary resolved by the `ready` handler of a successful connect
(timestamp omitted). -/
structure ConnectionSummary where
  status : String
  host : Option String
  port : Nat
  username : Option String
  authMethod : String
  deriving DecidableEq, Repr

/-- The object the `ready` handler resolves with: auth method reported as
`"key"` exactly when private-key material is truthy. -/
def connectSummary (cfg : SSHConfig) : ConnectionSummary :=
  { status := "connected"
    host := cfg.host
    port := cfg.port
    username := cfg.username
    authMethod := if optTruthy cfg.privateKey then "key" else "password" }

/-- The error the `error` handler rejects a connect attempt with. -/
def connectErrorValue (msg : String) : McpErr :=
  ⟨.internalError, "SSH connection failed: " ++ msg⟩

/-- Options handed to the transport's `connect` call. -/
structure ConnectOptions where
  host : Option String
  port : Nat
  username : Option String
  password : Option String
  privateKey : Option String
  passphrase : Option String
  deriving DecidableEq, Repr

/-- `connectOptions` construction: private key wins; passphrase only added
alongside a private key and only when truthy; password only when no
private key. -/
def buildConnectOptions (cfg : SSHConfig) : ConnectOptions :=
  let base : ConnectOptions :=
    ⟨cfg.host, cfg.port, cfg.username, none, none, none⟩
  if optTruthy cfg.privateKey then
    if optTruthy cfg.passphrase then
      { base with privateKey := cfg.privateKey, passphrase := cfg.passphrase }
    else
      { base with privateKey := cfg.privateKey }
  else if optTruthy cfg.password then
    { base with password := cfg.password }
  else base

/-- Result of the `ssh_disconnect` tool (timestamp omitted). -/
structure DisconnectSummary where
  status : String
  message : Option String
  deriving DecidableEq, Repr

/-! ### World model

The server state alone cannot express handle liveness, so lifecycle claims
are settled over a world that also tracks: the connect attempt in flight
(at most one, since the dispatcher serializes tool calls), which handles
are currently live, and which ended handles still have their `end` event
pending delivery (listeners stay registered after `.end()`). -/

structure World where
  server : ServerState
  pending : Option (Nat × SSHConfig)
  alive : List Nat
  pendingEnds : List Nat
  nextId : Nat
  deriving DecidableEq, Repr

/-- The world before any tool call. -/
def initWorld : World := ⟨initState, none, [], [], 0⟩

/-- Body of the `error` and `end` handlers: unconditionally null out all
three session fields (the handlers do not check that the connection they
were registered on is still the installed one). -/
def clearSession : ServerState := ⟨none, none, false⟩

/-- Events: the serialized tool calls plus the asynchronous transport
callbacks. -/
inductive Event
  | connectCall (args : ConnectArgs)
  | readyEvt
  | connectErrorEvt
  | endEvt (h : Nat)
  | errorEvt (h : Nat)
  | disconnectCall
  | statusCall
  deriving DecidableEq, Repr

/-- One step of the lifecycle machine.  `connectCall` mirrors
`connectToSSH`: tear down any installed handle first (lines 182–186 set
`sshConnection` and `isConnected` but leave `connectionConfig`), then
validate, then start the attempt.  `readyEvt` installs the pending handle;
`connectErrorEvt`, `endEvt` and `errorEvt` run the corresponding handlers;
`disconnectCall` mirrors `disconnectFromSSH`; `statusCall` is a pure read.
An event that is not enabled leaves the world unchanged. -/
def step (w : World) : Event → World
  | .connectCall args =>
    if w.pending.isSome then w else
      let w1 : World :=
        match w.server.sshConnection with
        | some h =>
          { w with
              server := { w.server with sshConnection := none, isConnected := false }
              alive := w.alive.erase h
              pendingEnds := h :: w.pendingEnds }
        | none => w
      let cfg := mkSSHConfig args
      if validateSSHConfig cfg then
        { w1 with pending := some (w1.nextId, cfg), nextId := w1.nextId + 1 }
      else w1
  | .readyEvt =>
    match w.pending with
    | some (h, cfg) =>
      { w with
          server := ⟨some h, some cfg, true⟩
          pending := none
          alive := h :: w.alive }
    | none => w
  | .connectErrorEvt =>
    match w.pending with
    | some _ => { w with server := clearSession, pending := none }
    | none => w
  | .endEvt h =>
    if h ∈ w.alive ∨ h ∈ w.pendingEnds then
      { w with
          server := clearSession
          alive := w.alive.erase h
          pendingEnds := w.pendingEnds.erase h }
    else w
  | .errorEvt h =>
    if h ∈ w.alive then
      { w with server := clearSession, alive := w.alive.erase h }
    else w
  | .disconnectCall =>
    match w.server.sshConnection with
    | some h =>
      { w with
          server := clearSession
          alive := w.alive.erase h
          pendingEnds := h :: w.pendingEnds }
    | none => w
  | .statusCall => w

/-- Run a sequence of events from a world. -/
def runTrace (w : World) (es : List Event) : World :=
  es.foldl step w

/-- `disconnectFromSSH` with its return value: end and clear when a handle
is installed, otherwise report that there is nothing to disconnect. -/
def disconnectFromSSH (w : World) : World × DisconnectSummary :=
  match w.server.sshConnection with
  | some h =>
    ({ w with
        server := clearSession
        alive := w.alive.erase h
        pendingEnds := h :: w.pendingEnds },
     ⟨"disconnected", none⟩)
  | none =>
    (w, ⟨"no_connection", some "No active SSH connection to disconnect"⟩)

/-! ### Command executor -/

/-- Arguments of the `ssh_exec` tool; `timeout` defaults to 30000 ms when
absent; the handler probes `command` with truthiness and `typeof`, so it is
kept as a raw `JSVal`. -/
structure ExecArgs where
  command : JSVal
  timeout : Option Nat
  workingDirectory : Option String
  deriving DecidableEq, Repr

/-- The regular expression guarding `workingDirectory`: one or more of
ASCII letters, digits, `/`, `.`, `_`, `-`. -/
def validPathChar (c : Char) : Bool :=
  c.isAlpha || c.isDigit || c = '/' || c = '.' || c = '_' || c = '-'

/-- `validPathRegex.test wd` for the pattern above. -/
def validPathTest (s : String) : Bool :=
  s ≠ "" && s.toList.all validPathChar

/-- What the transport does with the one exec channel of a call: the exec
request is refused, or the channel closes after `elapsed` ms with an exit
code and the accumulated stream contents, or it never closes. -/
inductive ChannelBehavior
  | execRefused (msg : String)
  | closes (elapsed : Nat) (code : Int) (stdout stderr : String)
  | silent
  deriving DecidableEq, Repr

/-- The record resolved by the `close` handler (timestamp omitted). -/
structure ExecResult where
  host : Option String
  port : Nat
  username : Option String
  command : String
  originalCommand : String
  workingDirectory : Option String
  exitCode : Int
  stdout : String
  stderr : String
  success : Bool
  deriving DecidableEq, Repr

deriving instance DecidableEq for Except

/-- Everything one `executeSSHCommand` call produces: its outcome, the
command string passed to the transport's `exec` (none when no channel was
requested), and the session fields afterwards. -/
structure ExecEffect where
  outcome : Except McpErr ExecResult
  execRequested : Option String
  finalState : ServerState
  deriving DecidableEq, Repr

/-- The message of the timeout rejection. -/
def timeoutMsg (t : Nat) : String :=
  "SSH command timed out after " ++ toString t ++ "ms"

/-- `executeSSHCommand`, in source order: command must be a truthy string;
the session must hold a connection with `isConnected`; a truthy
`workingDirectory` must pass the path regex and is composed as
`cd "<wd>" && <command>`; then the channel either is refused (Execution
error), closes in time (result with `success := exitCode == 0`), or the
timeout fires first (Timeout rejection).  The method never writes the
session fields, so `finalState` is the input state in every branch.
(The source reads the config through a non-null assertion; the `getD`
default is never observed when `isConnected` holds in a reachable state.) -/
def executeSSHCommand (st : ServerState) (args : ExecArgs) (beh : ChannelBehavior) :
    ExecEffect :=
  let timeout := args.timeout.getD 30000
  if ! (args.command.truthy && args.command.isStringTy) then
    ⟨.error ⟨.invalidRequest, "Command is required and must be a string"⟩, none, st⟩
  else if ! (st.sshConnection.isSome && st.isConnected) then
    ⟨.error ⟨.invalidRequest, "Not connected to SSH server. Use ssh_connect first."⟩,
      none, st⟩
  else
    let command := args.command.asString
    let wd := args.workingDirectory
    if optTruthy wd && ! validPathTest (wd.getD "") then
      ⟨.error ⟨.invalidRequest, "Invalid working directory format"⟩, none, st⟩
    else
      let finalCommand :=
        if optTruthy wd then "cd \"" ++ wd.getD "" ++ "\" && " ++ command
        else command
      let cfg := st.connectionConfig.getD ⟨none, 0, none, none, none, none⟩
      match beh with
      | .execRefused msg =>
        ⟨.error ⟨.internalError, "Failed to execute command: " ++ msg⟩,
          some finalCommand, st⟩
      | .closes elapsed code out errOut =>
        if elapsed < timeout then
          ⟨.ok
            { host := cfg.host
              port := cfg.port
              username := cfg.username
              command := finalCommand
              originalCommand := command
              workingDirectory := wd
              exitCode := code
              stdout := out
              stderr := errOut
              success := code = 0 },
            some finalCommand, st⟩
        else
          ⟨.error ⟨.internalError, timeoutMsg timeout⟩, some finalCommand, st⟩
      | .silent =>
        ⟨.error ⟨.internalError, timeoutMsg timeout⟩, some finalCommand, st⟩

/-- Whether an outcome is a Validation (`InvalidRequest`) error. -/
def isValidationErr : Except McpErr ExecResult → Bool
  | .error e => e.code = .invalidRequest
  | .ok _ => false

/-- The error code of an outcome, when it is an error. -/
def errCode? : Except McpErr ExecResult → Option McpCode
  | .error e => some e.code
  | .ok _ => none

/-- The error message of an outcome, when it is an error. -/
def errMsg? : Except McpErr ExecResult → Option String
  | .error e => some e.message
  | .ok _ => none

/-- The composed command of a successful outcome. -/
def resultCommand? : Except McpErr ExecResult → Option String
  | .ok r => some r.command
  | .error _ => none

/-- The original command of a successful outcome. -/
def resultOriginal? : Except McpErr ExecResult → Option String
  | .ok r => some r.originalCommand
  | .error _ => none

/-- The success flag of a successful outcome. -/
def resultSuccess? : Except McpErr ExecResult → Option Bool
  | .ok r => some r.success
  | .error _ => none

/-- The exit code of a successful outcome. -/
def resultExitCode? : Except McpErr ExecResult → Option Int
  | .ok r => some r.exitCode
  | .error _ => none

/-- The echoed working directory of a successful outcome. -/
def resultWd? : Except McpErr ExecResult → Option (Option String)
  | .ok r => some r.workingDirectory
  | .error _ => none

/-- An exec effect with the result's echoed working-directory field
blanked, for comparing two calls up to that field. -/
def eraseWdField (e : ExecEffect) : ExecEffect :=
  { e with
      outcome :=
        match e.outcome with
        | .ok r => .ok { r with workingDirectory := none }
        | .error err => .error err }

/-- A working-directory argument that reaches the transport without a
Validation rejection: absent, empty (falsy, so the check is skipped), or
matching the path regex. -/
def wdPasses : Option String → Bool
  | none => true
  | some wd => if wd = "" then true else validPathTest wd

/-- Whether the channel fails to report closure within `t` ms (the refusal
of the exec request is a different path and closes nothing). -/
def noCloseWithin (t : Nat) : ChannelBehavior → Bool
  | .silent => true
  | .closes e _ _ _ => t ≤ e
  | .execRefused _ => false

/-- Executable infix test on character lists. -/
def listInfix (needle hay : List Char) : Bool :=
  (List.range (hay.length + 1)).any (fun i => needle.isPrefixOf (hay.drop i))

/-- Whether a message mentions connecting (contains the letters
`connect`, as in `connected` or `ssh_connect`). -/
def mentionsConnect (m : String) : Bool :=
  listInfix "connect".toList m.toList

/-! ### Concrete fixtures for witnesses and counterexamples -/

/-- A validated password-auth config. -/
def cfgPw : SSHConfig :=
  ⟨some "example.com", 22, some "alice", some "pw", none, none⟩

/-- A connected server state holding handle 0 and `cfgPw`. -/
def stConn : ServerState := ⟨some 0, some cfgPw, true⟩

/-- A world where handle 0 is installed and live. -/
def wConn : World := ⟨stConn, none, [0], [], 1⟩

/-- A world with a connect attempt in flight and nothing installed (as
after a first `connectCall`). -/
def wPend : World := ⟨initState, some (0, cfgPw), [], [], 1⟩

/-- Valid password-auth connect arguments. -/
def argsPw : ConnectArgs :=
  ⟨some "h1.example", none, some "alice", some "pw", none, none⟩

/-- Connect arguments supplying both a private key and a password, plus a
passphrase. -/
def argsBoth : ConnectArgs :=
  ⟨some "h1.example", none, some "alice", some "pw", some "KEYDATA", some "pp"⟩

/-- The event trace in which the replaced handle's `end` event is delivered
only after the next connect has installed its handle. -/
def staleEndTrace : List Event :=
  [.connectCall argsPw, .readyEvt, .connectCall argsPw, .readyEvt,
   .endEvt 0, .connectCall argsPw, .readyEvt]

/-! ### Theorems -/

/-- A working-directory argument that passes (absent, empty, or matching the
regex) makes the guard of the invalid-directory branch false. -/
lemma wd_cond_false_of_passes (wd : Option String) (hwd : wdPasses wd = true) :
    (optTruthy wd && ! validPathTest (wd.getD "")) = false := by
  cases hargs : wd with
  | none => rfl
  | some s =>
    rw [hargs] at hwd
    by_cases hse : s = ""
    · subst hse
      simp [optTruthy]
    · have hv : validPathTest s = true := by
        simpa [wdPasses, hse] using hwd
      simp [optTruthy, hv]

/-- C2: an execute call whose command is empty or not a text value, or whose
supplied working directory contains a character outside the path-safe set
(letters, digits, `/`, `.`, `_`, `-`), fails with a Validation
(`InvalidRequest`) error and never requests an execution channel on the
transport. -/
theorem exec_validation_precedes_side_effects
    (st : ServerState) (args : ExecArgs) (beh : ChannelBehavior)
    (h : (args.command.truthy && args.command.isStringTy) = false
      ∨ ∃ wd, args.workingDirectory = some wd
          ∧ wd.toList.any (fun c => ! validPathChar c) = true) :
    isValidationErr (executeSSHCommand st args beh).outcome = true
    ∧ (executeSSHCommand st args beh).execRequested = none := by
  rcases h with hcmd | ⟨wd, hwd, hbad⟩
  · simp [executeSSHCommand, hcmd, isValidationErr]
  · have hne : wd ≠ "" := by
      intro he
      subst he
      simp at hbad
    have hall : wd.toList.all validPathChar = false := by
      rcases List.any_eq_true.mp hbad with ⟨c, hcmem, hcbad⟩
      have hcf : validPathChar c = false := by simpa using hcbad
      rw [Bool.eq_false_iff]
      intro hallc
      have := List.all_eq_true.mp hallc c hcmem
      rw [hcf] at this
      exact Bool.false_ne_true this
    have hvp : validPathTest wd = false := by
      unfold validPathTest
      rw [hall, Bool.and_false]
    by_cases hc : (args.command.truthy && args.command.isStringTy) = true
    · by_cases hcon : (st.sshConnection.isSome && st.isConnected) = true
      · simp [executeSSHCommand, hc, hcon, hwd, optTruthy, hne, hvp, isValidationErr]
      · have hcon' : (st.sshConnection.isSome && st.isConnected) = false := by
          simpa using hcon
        simp [executeSSHCommand, hc, hcon', isValidationErr]
    · have hc' : (args.command.truthy && args.command.isStringTy) = false := by
        simpa using hc
      simp [executeSSHCommand, hc', isValidationErr]

/-- C2 witness: a connected session, a valid command and the working
directory `/tmp;rm` produce a Validation error with no channel. -/
theorem exec_validation_precedes_side_effects_witness :
    isValidationErr (executeSSHCommand stConn ⟨.str "ls", none, some "/tmp;rm"⟩ .silent).outcome = true
    ∧ (executeSSHCommand stConn ⟨.str "ls", none, some "/tmp;rm"⟩ .silent).execRequested = none :=
  exec_validation_precedes_side_effects stConn ⟨.str "ls", none, some "/tmp;rm"⟩ .silent
    (Or.inr ⟨"/tmp;rm", rfl, by decide⟩)

/-- C3 counterexample: the timeout rejection carries the same
machine-readable code (`InternalError`) as the Execution-error rejection
and as the Connection-error rejection, so it is not a distinct error kind;
only its message differs. -/
theorem timeout_error_kind_counterexample :
    errCode? (executeSSHCommand stConn ⟨.str "ls", none, none⟩ .silent).outcome
      = some .internalError
    ∧ errCode? (executeSSHCommand stConn ⟨.str "ls", none, none⟩ (.execRefused "boom")).outcome
      = some .internalError
    ∧ (connectErrorValue "refused").code = .internalError
    ∧ errMsg? (executeSSHCommand stConn ⟨.str "ls", none, none⟩ .silent).outcome
      ≠ errMsg? (executeSSHCommand stConn ⟨.str "ls", none, none⟩ (.execRefused "boom")).outcome := by
  decide

/-- C3 (amended): when the channel has not reported closure within
`timeoutMs` (default 30000) of execution start, execute rejects with the
timeout error — the `InternalError` code (shared with Connection and
Execution errors; distinct from Validation's `InvalidRequest`) and the
message `SSH command timed out after <t>ms` — returns no ExecutionResult,
and leaves the session fields untouched, in particular still Connected. -/
theorem exec_timeout_behavior
    (st : ServerState) (args : ExecArgs) (beh : ChannelBehavior)
    (hcmd : (args.command.truthy && args.command.isStringTy) = true)
    (hcon : (st.sshConnection.isSome && st.isConnected) = true)
    (hwd : wdPasses args.workingDirectory = true)
    (hbeh : noCloseWithin (args.timeout.getD 30000) beh = true) :
    (executeSSHCommand st args beh).outcome
      = .error ⟨.internalError, timeoutMsg (args.timeout.getD 30000)⟩
    ∧ (executeSSHCommand st args beh).finalState = st := by
  have h3 := wd_cond_false_of_passes args.workingDirectory hwd
  cases beh with
  | execRefused m => simp [noCloseWithin] at hbeh
  | closes e c o er =>
    have he : ¬ e < args.timeout.getD 30000 := by
      simp [noCloseWithin] at hbeh
      omega
    refine ⟨?_, ?_⟩ <;> simp [executeSSHCommand, hcmd, hcon, h3, he]
  | silent =>
    refine ⟨?_, ?_⟩ <;> simp [executeSSHCommand, hcmd, hcon, h3]

/-- C3 witness: a connected session with a silent channel and the default
timeout rejects with the timeout message and keeps the state. -/
theorem exec_timeout_behavior_witness :
    (executeSSHCommand stConn ⟨.str "ls", none, none⟩ .silent).outcome
      = .error ⟨.internalError, timeoutMsg 30000⟩
    ∧ (executeSSHCommand stConn ⟨.str "ls", none, none⟩ .silent).finalState = stConn :=
  exec_timeout_behavior stConn ⟨.str "ls", none, none⟩ .silent
    (by decide) (by decide) (by decide) (by decide)

/-- C4: with a valid working directory present, the command handed to the
transport's exec is exactly `cd "<wd>" && <command>`; without one it is the
original command; and the result retains the composed string in `command`
and the original in `originalCommand`. -/
theorem exec_working_directory_composition
    (st : ServerState) (cmd wd : String) (t e : Nat) (c : Int) (o er : String)
    (hcon : (st.sshConnection.isSome && st.isConnected) = true)
    (hcmd : cmd ≠ "")
    (hwd : validPathTest wd = true)
    (he : e < t) :
    (executeSSHCommand st ⟨.str cmd, some t, some wd⟩ (.closes e c o er)).execRequested
      = some ("cd \"" ++ wd ++ "\" && " ++ cmd)
    ∧ resultCommand? (executeSSHCommand st ⟨.str cmd, some t, some wd⟩ (.closes e c o er)).outcome
      = some ("cd \"" ++ wd ++ "\" && " ++ cmd)
    ∧ resultOriginal? (executeSSHCommand st ⟨.str cmd, some t, some wd⟩ (.closes e c o er)).outcome
      = some cmd
    ∧ (executeSSHCommand st ⟨.str cmd, some t, none⟩ (.closes e c o er)).execRequested
      = some cmd
    ∧ resultCommand? (executeSSHCommand st ⟨.str cmd, some t, none⟩ (.closes e c o er)).outcome
      = some cmd
    ∧ resultOriginal? (executeSSHCommand st ⟨.str cmd, some t, none⟩ (.closes e c o er)).outcome
      = some cmd := by
  have hne : wd ≠ "" := by
    intro hcontra
    rw [hcontra] at hwd
    simp [validPathTest] at hwd
  refine ⟨?_, ?_, ?_, ?_, ?_, ?_⟩ <;>
    simp [executeSSHCommand, JSVal.truthy, JSVal.isStringTy, JSVal.asString,
      hcon, hcmd, optTruthy, hne, hwd, he, resultCommand?, resultOriginal?]

/-- C4 witness: `ls` in `/tmp` is sent as `cd "/tmp" && ls`; `ls` without a
working directory is sent as `ls`; both strings are retained. -/
theorem exec_working_directory_composition_witness :
    (executeSSHCommand stConn ⟨.str "ls", some 30000, some "/tmp"⟩ (.closes 5 0 "" "")).execRequested
      = some "cd \"/tmp\" && ls"
    ∧ resultCommand? (executeSSHCommand stConn ⟨.str "ls", some 30000, some "/tmp"⟩ (.closes 5 0 "" "")).outcome
      = some "cd \"/tmp\" && ls"
    ∧ resultOriginal? (executeSSHCommand stConn ⟨.str "ls", some 30000, some "/tmp"⟩ (.closes 5 0 "" "")).outcome
      = some "ls"
    ∧ (executeSSHCommand stConn ⟨.str "ls", some 30000, none⟩ (.closes 5 0 "" "")).execRequested
      = some "ls"
    ∧ resultCommand? (executeSSHCommand stConn ⟨.str "ls", some 30000, none⟩ (.closes 5 0 "" "")).outcome
      = some "ls"
    ∧ resultOriginal? (executeSSHCommand stConn ⟨.str "ls", some 30000, none⟩ (.closes 5 0 "" "")).outcome
      = some "ls" :=
  exec_working_directory_composition stConn "ls" "/tmp" 30000 5 0 "" ""
    (by decide) (by decide) (by decide) (by decide)

/-- C6: when the channel closes with an exit code before the timeout, the
call resolves with a normal (non-error) result whose `success` flag is
exactly `exitCode = 0`; a non-zero exit code still resolves, with
`success = false`. -/
theorem exec_exit_code_semantics
    (st : ServerState) (args : ExecArgs) (e : Nat) (c : Int) (o er : String)
    (hcmd : (args.command.truthy && args.command.isStringTy) = true)
    (hcon : (st.sshConnection.isSome && st.isConnected) = true)
    (hwd : wdPasses args.workingDirectory = true)
    (he : e < args.timeout.getD 30000) :
    resultSuccess? (executeSSHCommand st args (.closes e c o er)).outcome
      = some (decide (c = 0))
    ∧ resultExitCode? (executeSSHCommand st args (.closes e c o er)).outcome = some c
    ∧ (c ≠ 0 →
        resultSuccess? (executeSSHCommand st args (.closes e c o er)).outcome = some false) := by
  have h3 := wd_cond_false_of_passes args.workingDirectory hwd
  refine ⟨?_, ?_, ?_⟩
  · simp [executeSSHCommand, hcmd, hcon, h3, he, resultSuccess?]
  · simp [executeSSHCommand, hcmd, hcon, h3, he, resultExitCode?]
  · intro hc
    simp [executeSSHCommand, hcmd, hcon, h3, he, resultSuccess?, hc]

/-- C6 witness: exit code 1 resolves normally with `success = false`, and
exit code 0 with `success = true`. -/
theorem exec_exit_code_semantics_witness :
    resultSuccess? (executeSSHCommand stConn ⟨.str "ls", none, none⟩ (.closes 5 1 "" "err")).outcome
      = some false
    ∧ resultExitCode? (executeSSHCommand stConn ⟨.str "ls", none, none⟩ (.closes 5 1 "" "err")).outcome
      = some 1
    ∧ resultSuccess? (executeSSHCommand stConn ⟨.str "ls", none, none⟩ (.closes 5 0 "out" "")).outcome
      = some true := by
  have h1 := exec_exit_code_semantics stConn ⟨.str "ls", none, none⟩ 5 1 "" "err"
    (by decide) (by decide) (by decide) (by decide)
  have h0 := exec_exit_code_semantics stConn ⟨.str "ls", none, none⟩ 5 0 "out" ""
    (by decide) (by decide) (by decide) (by decide)
  exact ⟨h1.2.2 (by decide), h1.2.1, by simpa using h0.1⟩

/-- C8 counterexample: execute while Disconnected with an empty command
fails with the command-validation message, which does not mention the need
to connect — the command check runs before the connection check. -/
theorem not_connected_guard_counterexample :
    errMsg? (executeSSHCommand initState ⟨.str "", none, none⟩ .silent).outcome
      = some "Command is required and must be a string"
    ∧ mentionsConnect "Command is required and must be a string" = false
    ∧ mentionsConnect "Not connected to SSH server. Use ssh_connect first." = true := by
  decide

/-- C8 (amended): every execute call made while the session is not
Connected fails with a Validation (`InvalidRequest`) error and opens no
channel; when the supplied command is itself a valid non-empty string, the
message is `Not connected to SSH server. Use ssh_connect first.` (which
mentions connecting); an invalid command is reported with the
command-validation message instead. -/
theorem exec_not_connected_guard
    (st : ServerState) (args : ExecArgs) (beh : ChannelBehavior)
    (hdis : (st.sshConnection.isSome && st.isConnected) = false) :
    isValidationErr (executeSSHCommand st args beh).outcome = true
    ∧ (executeSSHCommand st args beh).execRequested = none
    ∧ ((args.command.truthy && args.command.isStringTy) = true →
        (executeSSHCommand st args beh).outcome
          = .error ⟨.invalidRequest, "Not connected to SSH server. Use ssh_connect first."⟩) := by
  by_cases hc : (args.command.truthy && args.command.isStringTy) = true
  · refine ⟨?_, ?_, fun _ => ?_⟩ <;>
      simp [executeSSHCommand, hc, hdis, isValidationErr]
  · have hc' : (args.command.truthy && args.command.isStringTy) = false := by
      simpa using hc
    refine ⟨?_, ?_, fun hcontra => ?_⟩
    · simp [executeSSHCommand, hc', isValidationErr]
    · simp [executeSSHCommand, hc']
    · rw [hcontra] at hc'
      exact absurd hc' (by simp)

/-- C8 witness: in the initial (disconnected) state a valid command is
rejected with the connect-first message and no channel. -/
theorem exec_not_connected_guard_witness :
    isValidationErr (executeSSHCommand initState ⟨.str "ls", none, none⟩ .silent).outcome = true
    ∧ (executeSSHCommand initState ⟨.str "ls", none, none⟩ .silent).execRequested = none
    ∧ (executeSSHCommand initState ⟨.str "ls", none, none⟩ .silent).outcome
        = .error ⟨.invalidRequest, "Not connected to SSH server. Use ssh_connect first."⟩ :=
  ⟨(exec_not_connected_guard initState ⟨.str "ls", none, none⟩ .silent (by decide)).1,
   (exec_not_connected_guard initState ⟨.str "ls", none, none⟩ .silent (by decide)).2.1,
   (exec_not_connected_guard initState ⟨.str "ls", none, none⟩ .silent (by decide)).2.2 (by decide)⟩

/-- C10: a supplied empty-string working directory is falsy, so the regex
check is skipped, the command goes to the transport unmodified, the whole
call behaves exactly as if the argument were absent except that the result
echoes the empty working directory. -/
theorem exec_empty_working_directory
    (st : ServerState) (cmd : String) (t : Option Nat) (beh : ChannelBehavior)
    (hcon : (st.sshConnection.isSome && st.isConnected) = true)
    (hcmd : cmd ≠ "") :
    (executeSSHCommand st ⟨.str cmd, t, some ""⟩ beh).execRequested = some cmd
    ∧ eraseWdField (executeSSHCommand st ⟨.str cmd, t, some ""⟩ beh)
      = eraseWdField (executeSSHCommand st ⟨.str cmd, t, none⟩ beh)
    ∧ resultWd? (executeSSHCommand st ⟨.str cmd, t, some ""⟩ beh).outcome
      = (resultSuccess? (executeSSHCommand st ⟨.str cmd, t, some ""⟩ beh).outcome).map
          (fun _ => (some "" : Option String)) := by
  cases beh with
  | execRefused m =>
    refine ⟨?_, ?_, ?_⟩ <;>
      simp [executeSSHCommand, JSVal.truthy, JSVal.isStringTy, JSVal.asString,
        hcon, hcmd, optTruthy, eraseWdField, resultWd?, resultSuccess?]
  | closes e c o er =>
    by_cases he : e < t.getD 30000
    · refine ⟨?_, ?_, ?_⟩ <;>
        simp [executeSSHCommand, JSVal.truthy, JSVal.isStringTy, JSVal.asString,
          hcon, hcmd, optTruthy, he, eraseWdField, resultWd?, resultSuccess?]
    · refine ⟨?_, ?_, ?_⟩ <;>
        simp [executeSSHCommand, JSVal.truthy, JSVal.isStringTy, JSVal.asString,
          hcon, hcmd, optTruthy, he, eraseWdField, resultWd?, resultSuccess?]
  | silent =>
    refine ⟨?_, ?_, ?_⟩ <;>
      simp [executeSSHCommand, JSVal.truthy, JSVal.isStringTy, JSVal.asString,
        hcon, hcmd, optTruthy, eraseWdField, resultWd?, resultSuccess?]

/-- C10 witness: with `workingDirectory = ""` the command `ls` is sent
unmodified, the effect matches the absent-argument call up to the echoed
field, and the result echoes the empty working directory. -/
theorem exec_empty_working_directory_witness :
    (executeSSHCommand stConn ⟨.str "ls", none, some ""⟩ (.closes 5 0 "o" "e")).execRequested
      = some "ls"
    ∧ eraseWdField (executeSSHCommand stConn ⟨.str "ls", none, some ""⟩ (.closes 5 0 "o" "e"))
      = eraseWdField (executeSSHCommand stConn ⟨.str "ls", none, none⟩ (.closes 5 0 "o" "e"))
    ∧ resultWd? (executeSSHCommand stConn ⟨.str "ls", none, some ""⟩ (.closes 5 0 "o" "e")).outcome
      = (resultSuccess? (executeSSHCommand stConn ⟨.str "ls", none, some ""⟩ (.closes 5 0 "o" "e")).outcome).map
          (fun _ => (some "" : Option String)) :=
  exec_empty_working_directory stConn "ls" none (.closes 5 0 "o" "e") (by decide) (by decide)

/-- C5: delivering a mid-session connection error or an unsolicited remote
end event for a live handle — in any world, in particular a connected
session with no attempt in flight — forces the session fields to the
Disconnected shape, as does a connect-attempt failure in any world with an
attempt in flight; a subsequent status call therefore reports
`connected = false` with null host, port, username and auth method, and a
status call itself never changes the world. -/
theorem connection_error_and_end_force_disconnected
    (w w' : World) (h : Nat)
    (ha : h ∈ w.alive)
    (hp : w'.pending.isSome = true) :
    getSSHStatusOf (step w (.errorEvt h)).server = ⟨false, none, none, none, none⟩
    ∧ getSSHStatusOf (step w (.endEvt h)).server = ⟨false, none, none, none, none⟩
    ∧ getSSHStatusOf (step w' .connectErrorEvt).server = ⟨false, none, none, none, none⟩
    ∧ step (step w (.endEvt h)) .statusCall = step w (.endEvt h) := by
  obtain ⟨p, hp'⟩ := Option.isSome_iff_exists.mp hp
  refine ⟨?_, ?_, ?_, rfl⟩
  · simp [step, ha, getSSHStatusOf, clearSession]
  · simp [step, ha, getSSHStatusOf, clearSession]
  · simp [step, hp', getSSHStatusOf, clearSession]

/-- C5 witness: on the connected world (live installed handle 0, no
pending attempt) the error and unsolicited-end events leave status
reporting disconnected with nulls, as does a connect failure on the world
with an attempt in flight. -/
theorem connection_error_and_end_force_disconnected_witness :
    getSSHStatusOf (step wConn (.errorEvt 0)).server = ⟨false, none, none, none, none⟩
    ∧ getSSHStatusOf (step wConn (.endEvt 0)).server = ⟨false, none, none, none, none⟩
    ∧ getSSHStatusOf (step wPend .connectErrorEvt).server = ⟨false, none, none, none, none⟩
    ∧ step (step wConn (.endEvt 0)) .statusCall = step wConn (.endEvt 0) :=
  connection_error_and_end_force_disconnected wConn wPend 0 (by decide) (by decide)

/-- C7: disconnect while a handle is installed ends that handle, clears all
session fields, and returns status `disconnected`; the immediately
repeated call — and any disconnect in a state with no installed handle —
returns status `no_connection` with the explanatory message, changes
nothing, and after both calls status reports `connected = false`. -/
theorem disconnect_idempotent
    (w w' : World) (hd : Nat)
    (hc : w.server.sshConnection = some hd)
    (hc' : w'.server.sshConnection = none) :
    (disconnectFromSSH w).2.status = "disconnected"
    ∧ (disconnectFromSSH w).1.server = ⟨none, none, false⟩
    ∧ (disconnectFromSSH w).1.alive = w.alive.erase hd
    ∧ hd ∈ (disconnectFromSSH w).1.pendingEnds
    ∧ (disconnectFromSSH (disconnectFromSSH w).1).2.status = "no_connection"
    ∧ (disconnectFromSSH (disconnectFromSSH w).1).2.message
        = some "No active SSH connection to disconnect"
    ∧ (disconnectFromSSH (disconnectFromSSH w).1).1 = (disconnectFromSSH w).1
    ∧ (getSSHStatusOf (disconnectFromSSH (disconnectFromSSH w).1).1.server).connected = false
    ∧ (getSSHStatusOf (disconnectFromSSH w).1.server).connected = false
    ∧ (disconnectFromSSH w').2.status = "no_connection"
    ∧ (disconnectFromSSH w').2.message = some "No active SSH connection to disconnect" := by
  refine ⟨?_, ?_, ?_, ?_, ?_, ?_, ?_, ?_, ?_, ?_, ?_⟩ <;>
    simp [disconnectFromSSH, hc, hc', clearSession, getSSHStatusOf]

/-- C7 witness: on the connected world the two successive disconnect calls
yield `disconnected` then `no_connection`, and status reports
disconnected afterwards; on the initial world disconnect reports
`no_connection`. -/
theorem disconnect_idempotent_witness :
    (disconnectFromSSH wConn).2.status = "disconnected"
    ∧ (disconnectFromSSH wConn).1.server = ⟨none, none, false⟩
    ∧ (disconnectFromSSH wConn).1.alive = wConn.alive.erase 0
    ∧ 0 ∈ (disconnectFromSSH wConn).1.pendingEnds
    ∧ (disconnectFromSSH (disconnectFromSSH wConn).1).2.status = "no_connection"
    ∧ (disconnectFromSSH (disconnectFromSSH wConn).1).2.message
        = some "No active SSH connection to disconnect"
    ∧ (disconnectFromSSH (disconnectFromSSH wConn).1).1 = (disconnectFromSSH wConn).1
    ∧ (getSSHStatusOf (disconnectFromSSH (disconnectFromSSH wConn).1).1.server).connected = false
    ∧ (getSSHStatusOf (disconnectFromSSH wConn).1.server).connected = false
    ∧ (disconnectFromSSH initWorld).2.status = "no_connection"
    ∧ (disconnectFromSSH initWorld).2.message = some "No active SSH connection to disconnect" :=
  disconnect_idempotent wConn initWorld 0 rfl rfl

/-- C9: for every connect call with private-key material present (truthy),
the ready summary reports auth method `key` even when a password was also
supplied, and the options passed to the transport carry the private key,
carry the passphrase exactly when one was given (truthy), and omit the
password; for every call with only a password the summary reports
`password` and the options carry the password. -/
theorem auth_method_inference
    (aK aP : ConnectArgs)
    (hk : optTruthy aK.privateKey = true)
    (hp : optTruthy aP.privateKey = false)
    (hpw : optTruthy aP.password = true) :
    (connectSummary (mkSSHConfig aK)).authMethod = "key"
    ∧ (buildConnectOptions (mkSSHConfig aK)).privateKey = aK.privateKey
    ∧ (buildConnectOptions (mkSSHConfig aK)).passphrase
        = (if optTruthy aK.passphrase then aK.passphrase else none)
    ∧ (buildConnectOptions (mkSSHConfig aK)).password = none
    ∧ (connectSummary (mkSSHConfig aP)).authMethod = "password"
    ∧ (buildConnectOptions (mkSSHConfig aP)).password = aP.password
    ∧ (buildConnectOptions (mkSSHConfig aP)).privateKey = none
    ∧ (buildConnectOptions (mkSSHConfig aP)).passphrase = none := by
  by_cases hkp : optTruthy aK.passphrase = true
  · refine ⟨?_, ?_, ?_, ?_, ?_, ?_, ?_, ?_⟩ <;>
      simp [connectSummary, buildConnectOptions, mkSSHConfig, hk, hkp, hp, hpw]
  · have hkp' : optTruthy aK.passphrase = false := by simpa using hkp
    refine ⟨?_, ?_, ?_, ?_, ?_, ?_, ?_, ?_⟩ <;>
      simp [connectSummary, buildConnectOptions, mkSSHConfig, hk, hkp', hp, hpw]

/-- C9 witness: with a private key, a password and a passphrase all
supplied the summary says `key` and the options carry key and passphrase
but omit the password; with only a password the summary says `password`
and the options carry it. -/
theorem auth_method_inference_witness :
    (connectSummary (mkSSHConfig argsBoth)).authMethod = "key"
    ∧ (buildConnectOptions (mkSSHConfig argsBoth)).privateKey = argsBoth.privateKey
    ∧ (buildConnectOptions (mkSSHConfig argsBoth)).passphrase
        = (if optTruthy argsBoth.passphrase then argsBoth.passphrase else none)
    ∧ (buildConnectOptions (mkSSHConfig argsBoth)).password = none
    ∧ (connectSummary (mkSSHConfig argsPw)).authMethod = "password"
    ∧ (buildConnectOptions (mkSSHConfig argsPw)).password = argsPw.password
    ∧ (buildConnectOptions (mkSSHConfig argsPw)).privateKey = none
    ∧ (buildConnectOptions (mkSSHConfig argsPw)).passphrase = none :=
  auth_method_inference argsBoth argsPw (by decide) (by decide) (by decide)

/-- C1: evaluating the lifecycle machine on the trace connect–ready–
connect–ready–(stale end of handle 0)–connect–ready leaves two handles
alive at once: the stale `end` handler of the replaced handle clears the
session fields while handle 1 is installed and alive, so the third connect
finds no connection to tear down and installs handle 2 alongside the
orphaned, still-live handle 1. -/
theorem stale_end_event_yields_two_live_handles :
    (runTrace initWorld staleEndTrace).alive = [2, 1]
    ∧ (runTrace initWorld staleEndTrace).server.sshConnection = some 2
    ∧ ¬ (runTrace initWorld staleEndTrace).alive.length ≤ 1 := by
  decide

end SshMcp
